import Mathlib

/-!
# Verification of the mobile-control tool's contact store and dispatch layer

Shallow embedding of `src/main.py` (classes `PhonebookRepository`,
`SystemController`, `MobileControlTool`) and of the unknown-action branch of
`src/api_server.py`. Python's JSON values are modelled by an inductive `Json`
type (numbers restricted to integers: no claim touches float payloads), the
backing file by `FileState`, and Python dicts by insertion-ordered association
lists, which is exactly the observable behaviour of `dict` (unique keys are an
invariant of states produced by `json.load` and maintained by the code; the
theorems carry it as a hypothesis where it matters).

Python exceptions are modelled by `PyExc` and fallible operations return
`Except PyExc`.  `str(exc)` is rendered by `excStr`; for `ValueError` this is
the exact Python message, for the other exception classes Python's rendering
carries interpreter detail that the claims never inspect, so a class-name
rendering is used.  External platform commands (`subprocess.run`) are modelled
as succeeding and are recorded in a command trace, since every claim under
verification concerns the validation and dispatch logic that runs before (or
instead of) the platform command.
-/

/-- A JSON value as produced by Python's `json.load`; `obj` carries the
insertion-ordered key/value pairs of the resulting `dict`, `num` covers the
integer numerals (no claim involves float payloads). -/
inductive Json where
  | null : Json
  | bool (b : Bool) : Json
  | num (n : Int) : Json
  | str (s : String) : Json
  | arr (xs : List Json) : Json
  | obj (kvs : List (String × Json)) : Json

/-- State of the backing phonebook file: absent, present but not valid JSON,
or present and parsing to the given JSON value. -/
inductive FileState where
  | missing : FileState
  | corrupt : FileState
  | parsed (j : Json) : FileState

/-- Python truthiness of a loaded JSON value (`if data ...`). -/
def pyTruthy : Json → Bool
  | .null => false
  | .bool b => b
  | .num n => n != 0
  | .str s => !s.isEmpty
  | .arr xs => !xs.isEmpty
  | .obj kvs => !kvs.isEmpty

/-- The Python exceptions raised by the code under verification. -/
inductive PyExc where
  | attributeError : PyExc
  | typeError : PyExc
  | valueError (msg : String) : PyExc
  | notImplementedError (msg : String) : PyExc
deriving DecidableEq, Repr

/-- Rendering of `str(exc)` as interpolated into the tool's failure messages:
exact for `ValueError`/`NotImplementedError` (whose messages the code builds
itself), class name for the interpreter-raised classes. -/
def excStr : PyExc → String
  | .attributeError => "AttributeError"
  | .typeError => "TypeError"
  | .valueError m => m
  | .notImplementedError m => m

/-- The `Contact` dataclass of `main.py`.  Python does not enforce the `str`
annotations, so `phone` and `alias_` are `Json` values; well-formed contacts
carry `Json.str` in both (the field is named `alias_` because `alias` is a
reserved word in this development's ambient library). -/
structure Contact where
  name : String
  phone : Json
  alias_ : Json

/-- `{"phone": contact.phone, "alias": contact.alias}` as built by
`add_contact`. -/
def contactInfo (c : Contact) : Json :=
  Json.obj [("phone", c.phone), ("alias", c.alias_)]

/-- `info.get(key, "")` on a dict modelled as an association list (first
match; Python dicts have unique keys). -/
def dictGetD (kvs : List (String × Json)) (k : String) : Json :=
  (kvs.lookup k).getD (Json.str "")

/-- `d[k] = v` on a Python dict: replace in place when the key is present,
append otherwise. -/
def dictInsert : List (String × Json) → String → Json → List (String × Json)
  | [], k, v => [(k, v)]
  | (k', v') :: rest, k, v =>
    if k' = k then (k, v) :: rest else (k', v') :: dictInsert rest k v

/-- `d.pop(k, None)` removal part: drop the entry for `k`. -/
def dictRemove (kvs : List (String × Json)) (k : String) : List (String × Json) :=
  kvs.filter (fun kv => kv.1 ≠ k)

/-- The legacy-format conversion of one entry:
`{name: {"phone": phone, "alias": ""}}` for `name, phone` in the old data. -/
def legacyEntry (kv : String × Json) : String × Json :=
  (kv.1, Json.obj [("phone", kv.2), ("alias", Json.str "")])

/-- `PhonebookRepository._read`: parse failures and a missing file degrade to
the empty dict; a loaded value that is truthy and not a dict makes
`data.values()` raise `AttributeError`; a non-empty dict whose first value is
a string is converted from the legacy `{"name": "phone"}` shape. -/
def readPhonebook : FileState → Except PyExc Json
  | .missing => .ok (Json.obj [])
  | .corrupt => .ok (Json.obj [])
  | .parsed d =>
    if pyTruthy d then
      match d with
      | .obj kvs =>
        match kvs.head? with
        | some (_, Json.str _) => .ok (Json.obj (kvs.map legacyEntry))
        | _ => .ok d
      | _ => .error .attributeError
    else .ok d

/-- The comprehension `[Contact(name, info.get("phone", ""), info.get("alias", ""))
for name, info in phonebook.items()]`, entry by entry; a non-dict `info` makes
`info.get` raise `AttributeError`. -/
def extractContacts : List (String × Json) → Except PyExc (List Contact)
  | [] => .ok []
  | kv :: rest =>
    match kv.2 with
    | .obj info =>
      (extractContacts rest).map
        (fun cs => ⟨kv.1, dictGetD info "phone", dictGetD info "alias"⟩ :: cs)
    | _ => .error .attributeError

/-- `PhonebookRepository.list_contacts`: build a `Contact` from every entry of
the loaded dict; `phonebook.items()` on a non-dict raises `AttributeError`. -/
def list_contacts (fs : FileState) : Except PyExc (List Contact) := do
  let pb ← readPhonebook fs
  match pb with
  | .obj kvs => extractContacts kvs
  | _ => .error .attributeError

/-- Result of `add_contact`: the returned value (or exception) and the file
state after the call. -/
structure AddOut where
  res : Except PyExc Bool
  fs : FileState

/-- Python substring test `pat in s` (used when `name in phonebook` runs on a
string that `_read` let through). -/
def strContains (s pat : String) : Bool :=
  pat.isEmpty || (s.splitOn pat).length ≥ 2

/-- `PhonebookRepository.add_contact`.  On a dict: duplicate name returns
`False` without writing, otherwise the entry is inserted and the whole dict
written back.  `_read` only lets a falsy non-dict through, on which
`contact.name in phonebook` is element membership (list), substring test
(string) or `TypeError` (int/bool/None), and the subsequent item assignment
raises `TypeError`. -/
def add_contact (fs : FileState) (c : Contact) : AddOut :=
  match readPhonebook fs with
  | .error e => ⟨.error e, fs⟩
  | .ok pb =>
    match pb with
    | .obj kvs =>
      if kvs.any (fun kv => kv.1 = c.name) then ⟨.ok false, fs⟩
      else ⟨.ok true, .parsed (Json.obj (dictInsert kvs c.name (contactInfo c)))⟩
    | .arr xs =>
      if xs.any (fun v => match v with | .str s => s = c.name | _ => false) then ⟨.ok false, fs⟩
      else ⟨.error .typeError, fs⟩
    | .str s =>
      if strContains s c.name then ⟨.ok false, fs⟩
      else ⟨.error .typeError, fs⟩
    | _ => ⟨.error .typeError, fs⟩

/-- Result of `delete_contact`: the returned value (or exception), the file
state after the call, and whether `_write` ran. -/
structure DelOut where
  res : Except PyExc (Option Contact)
  fs : FileState
  wrote : Bool

/-- `PhonebookRepository.delete_contact`.  `pop` returning `None` leaves the
store untouched; otherwise the shrunken dict is written *before* the removed
value is read back, so a non-dict stored value raises `AttributeError` after
the write.  On a non-dict store `pop(name, None)` raises `TypeError` (list:
too many arguments) or `AttributeError` (no such method). -/
def delete_contact (fs : FileState) (name : String) : DelOut :=
  match readPhonebook fs with
  | .error e => ⟨.error e, fs, false⟩
  | .ok pb =>
    match pb with
    | .obj kvs =>
      match kvs.lookup name with
      | none => ⟨.ok none, fs, false⟩
      | some info =>
        let fs' := FileState.parsed (Json.obj (dictRemove kvs name))
        match info with
        | .obj ikvs => ⟨.ok (some ⟨name, dictGetD ikvs "phone", dictGetD ikvs "alias"⟩), fs', true⟩
        | _ => ⟨.error .attributeError, fs', true⟩
    | .arr _ => ⟨.error .typeError, fs, false⟩
    | _ => ⟨.error .attributeError, fs, false⟩

/-- The mapping a store state denotes: the dict `_read` yields (legacy shape
already converted), or `none` when `_read` raises or yields a non-dict. -/
def storeDict (fs : FileState) : Option (List (String × Json)) :=
  match readPhonebook fs with
  | .ok (Json.obj kvs) => some kvs
  | _ => none

/-- A platform command: the argv list handed to `subprocess.run`. -/
abbrev Cmd := List String

/-- A dynamically-typed Python value as it can arrive in a tool parameter
(`None`, `bool`, `int` or `str`; no claim involves float parameters). -/
inductive PyVal where
  | vnone : PyVal
  | vbool (b : Bool) : PyVal
  | vint (n : Int) : PyVal
  | vstr (s : String) : PyVal

/-- The ASCII whitespace `int()` strips from a string argument. -/
def pyWhitespaceChar (c : Char) : Bool :=
  c == ' ' || c == '\t' || c == '\n' || c == '\r' || c == '\x0b' || c == '\x0c'

/-- The digit run after the first digit: further digits, with single
underscores allowed between two digits only (an underscore must be followed
by a digit, so `5_`, `5__0` fail while `5_0` succeeds). -/
def digitsCore : Nat → List Char → Option Nat
  | acc, [] => some acc
  | acc, c :: rest =>
    if c.isDigit then digitsCore (acc * 10 + (c.toNat - 48)) rest
    else if c == '_' then
      match rest with
      | [] => none
      | d :: rest' =>
        if d.isDigit then digitsCore (acc * 10 + (d.toNat - 48)) rest' else none
    else none

/-- A base-10 digit group: at least one digit, no leading underscore. -/
def parseUnsignedDigits : List Char → Option Nat
  | [] => none
  | c :: rest => if c.isDigit then digitsCore (c.toNat - 48) rest else none

/-- `int(s)` for a string: strip surrounding whitespace, then an optional
sign directly followed by digits with optional single underscore separators.
Exact for ASCII strings; Python additionally accepts non-ASCII decimal digits
and strips non-ASCII Unicode whitespace, which this model parses as failing
(the theorems that quantify over failing literals therefore restrict
themselves to ASCII input). -/
def pyParseInt (s : String) : Option Int :=
  let cs := ((s.toList.dropWhile pyWhitespaceChar).reverse.dropWhile pyWhitespaceChar).reverse
  match cs with
  | '-' :: rest => (parseUnsignedDigits rest).map (fun n => -(n : Int))
  | '+' :: rest => (parseUnsignedDigits rest).map (fun n => (n : Int))
  | _ => (parseUnsignedDigits cs).map (fun n => (n : Int))

/-- Python's `int(x)` on such a value: identity on ints, `True`/`False`
become `1`/`0` (`bool` is an `int` subclass), a string is parsed as a decimal
integer literal (`ValueError` otherwise; Python's message interpolates
`repr(s)`, rendered here as plain quote-wrapping, exact for strings without
quotes or escapes), `None` is a `TypeError`. -/
def pyToInt : PyVal → Except PyExc Int
  | .vnone => .error .typeError
  | .vbool b => .ok (cond b 1 0)
  | .vint n => .ok n
  | .vstr s =>
    match pyParseInt s with
    | some n => .ok n
    | none => .error (.valueError ("invalid literal for int() with base 10: \x27" ++ s ++ "\x27"))

/-- Python `str()` of a JSON value as interpolated into messages: exact on
strings and scalars; the container renderings are abbreviated (no claim
reaches a store whose phone/alias fields hold containers). -/
def pyStr : Json → String
  | .str s => s
  | .num n => toString n
  | .bool b => cond b "True" "False"
  | .null => "None"
  | .arr _ => "[...]"
  | .obj _ => "\x7b...\x7d"

/-- Python truthiness of an `Optional[str]` (`if not name`). -/
def pyTruthyOptStr : Option String → Bool
  | none => false
  | some s => !s.isEmpty

/-- The uniform result envelope `\x7bsuccess, message, data?\x7d`; `data`
holds the contact list of `phonebook_list` and is absent elsewhere. -/
structure Envelope where
  success : Bool
  message : String
  data : Option (List Contact) := none

/-- An observable side effect: a phonebook file read, a phonebook file
write, or a platform command. -/
inductive Eff where
  | fsRead : Eff
  | fsWrite : Eff
  | runCmd (argv : Cmd) : Eff

/-- `MobileControlTool.phonebook_list`: wraps `list_contacts`; an exception is
caught and reported with an empty `data`. -/
def phonebook_list (fs : FileState) : Envelope × List Eff :=
  match list_contacts fs with
  | .ok [] => (⟨true, "电话本为空", some []⟩, [.fsRead])
  | .ok cs => (⟨true, "找到 " ++ toString cs.length ++ " 个联系人", some cs⟩, [.fsRead])
  | .error e => (⟨false, "查看电话本失败: " ++ excStr e, some []⟩, [.fsRead])

/-- `MobileControlTool.phonebook_add`: empty/missing name or phone raises
before the repository is touched; a duplicate raises after the read; both are
caught into a failure envelope.  (`alias or ""` is the identity on the
string already held.) -/
def phonebook_add (fs : FileState) (name phone : Option String) (al : String) :
    Envelope × FileState × List Eff :=
  if !pyTruthyOptStr name || !pyTruthyOptStr phone then
    (⟨false, "添加联系人失败: 姓名和电话号码不能为空", none⟩, fs, [])
  else
    let n := name.getD ""
    let p := phone.getD ""
    match add_contact fs ⟨n, .str p, .str al⟩ with
    | ⟨.ok true, fs'⟩ =>
      (⟨true, "成功添加联系人 \x27" ++ n ++ "\x27" ++
        (if al = "" then "" else " (别名: " ++ al ++ ")") ++ ": " ++ p, none⟩, fs', [.fsRead, .fsWrite])
    | ⟨.ok false, fs'⟩ =>
      (⟨false, "添加联系人失败: 联系人 \x27" ++ n ++ "\x27 已存在", none⟩, fs', [.fsRead])
    | ⟨.error e, fs'⟩ =>
      (⟨false, "添加联系人失败: " ++ excStr e, none⟩, fs', [.fsRead])

/-- `MobileControlTool.phonebook_delete`: empty/missing name raises before the
repository is touched; an absent name raises after the read; the success
message interpolates the removed contact's alias (when truthy) and phone. -/
def phonebook_delete (fs : FileState) (name : Option String) :
    Envelope × FileState × List Eff :=
  if !pyTruthyOptStr name then
    (⟨false, "删除联系人失败: 联系人姓名不能为空", none⟩, fs, [])
  else
    let n := name.getD ""
    match delete_contact fs n with
    | ⟨.ok none, fs', _⟩ =>
      (⟨false, "删除联系人失败: 联系人 \x27" ++ n ++ "\x27 不存在", none⟩, fs', [.fsRead])
    | ⟨.ok (some c), fs', _⟩ =>
      (⟨true, "成功删除联系人 \x27" ++ n ++ "\x27" ++
        (if pyTruthy c.alias_ then " (别名: " ++ pyStr c.alias_ ++ ")" else "") ++
        ": " ++ pyStr c.phone, none⟩, fs', [.fsRead, .fsWrite])
    | ⟨.error e, fs', w⟩ =>
      (⟨false, "删除联系人失败: " ++ excStr e, none⟩, fs',
        .fsRead :: (if w then [.fsWrite] else []))

/-- `SystemController.dial`: reject an empty number, then issue the
platform-specific open command. -/
def dial (sys : String) (phone : String) : Except PyExc String × List Cmd :=
  if phone.isEmpty then (.error (.valueError "电话号码不能为空"), [])
  else if sys = "darwin" then (.ok ("正在拨打: " ++ phone), [["open", "tel:" ++ phone]])
  else if sys = "windows" then (.ok ("正在拨打: " ++ phone), [["start", "tel:" ++ phone]])
  else if sys = "linux" then (.ok ("正在拨打: " ++ phone), [["xdg-open", "tel:" ++ phone]])
  else (.error (.valueError ("不支持的操作系统: " ++ sys)), [])

/-- `SystemController.send_sms`: reject an empty number then an empty body,
issue the platform command, and return a preview truncated to 50 characters. -/
def send_sms (sys : String) (phone msg : String) : Except PyExc String × List Cmd :=
  if phone.isEmpty then (.error (.valueError "电话号码不能为空"), [])
  else if msg.isEmpty then (.error (.valueError "短信内容不能为空"), [])
  else
    let preview := msg.take 50 ++ (if msg.length > 50 then "..." else "")
    let reply := "正在发送短信到 " ++ phone ++ ": " ++ preview
    if sys = "darwin" then (.ok reply, [["open", "sms:" ++ phone ++ "&body=" ++ msg]])
    else if sys = "windows" then (.ok reply, [["start", "sms:" ++ phone ++ "?body=" ++ msg]])
    else if sys = "linux" then (.ok reply, [["xdg-open", "sms:" ++ phone ++ "?body=" ++ msg]])
    else (.error (.valueError ("不支持的操作系统: " ++ sys)), [])

/-- `SystemController.set_volume`.  `_validate_percentage` rejects a level
outside `[0, 100]` (the `isinstance(value, int)` half always holds here: every
caller applies `int()` first).  `int((level/100)*7)` and
`int((level/100)*65535)` are exact integer truncations for the validated
range, where float rounding cannot cross an integer boundary. -/
def set_volume (sys : String) (level : Int) : Except PyExc String × List Cmd :=
  if level < 0 ∨ 100 < level then (.error (.valueError "音量等级必须是0-100之间的整数"), [])
  else if sys = "darwin" then
    (.ok ("音量已设置为 " ++ toString level ++ "%"),
      [["osascript", "-e", "set volume output volume " ++ toString (level * 7 / 100)]])
  else if sys = "windows" then
    (.ok ("音量已设置为 " ++ toString level ++ "%"),
      [["nircmd.exe", "setsysvolume", toString (level * 65535 / 100)]])
  else if sys = "linux" then
    (.ok ("音量已设置为 " ++ toString level ++ "%"),
      [["amixer", "sset", "Master", toString level ++ "%"]])
  else (.error (.valueError ("不支持的操作系统: " ++ sys)), [])

/-- `str(level / 100)` for the validated range `0 ≤ level ≤ 100`: Python's
shortest-round-trip float rendering coincides with the exact two-decimal
rendering there. -/
def levelRatioStr (level : Int) : String :=
  if level % 100 = 0 then toString (level / 100) ++ ".0"
  else if level % 10 = 0 then "0." ++ toString (level / 10)
  else if level < 10 then "0.0" ++ toString level
  else "0." ++ toString level

/-- `SystemController.set_brightness`: same validation as `set_volume`, then
the platform-specific brightness command. -/
def set_brightness (sys : String) (level : Int) : Except PyExc String × List Cmd :=
  if level < 0 ∨ 100 < level then (.error (.valueError "亮度等级必须是0-100之间的整数"), [])
  else if sys = "darwin" then
    (.ok ("亮度已设置为 " ++ toString level ++ "%"), [["brightness", levelRatioStr level]])
  else if sys = "windows" then
    (.ok ("亮度已设置为 " ++ toString level ++ "%"),
      [["powershell", "-Command",
        "(Get-WmiObject -Namespace root/WMI -Class WmiMonitorBrightnessMethods).WmiSetBrightness(1, "
          ++ toString level ++ ")"]])
  else if sys = "linux" then
    (.ok ("亮度已设置为 " ++ toString level ++ "%"), [["brightnessctl", "set", toString level ++ "%"]])
  else (.error (.valueError ("不支持的操作系统: " ++ sys)), [])

/-- `SystemController.set_theme`: an invalid mode raises `ValueError` before
any command; `auto` passes validation but raises `NotImplementedError` on
every supported platform, still before any command. -/
def set_theme (sys : String) (mode : String) : Except PyExc String × List Cmd :=
  if mode ∈ (["light", "dark", "auto"] : List String) then
    if sys = "darwin" then
      if mode = "dark" then
        (.ok ("主题已设置为: " ++ mode),
          [["osascript", "-e",
            "tell application \"System Events\" to tell appearance preferences to set dark mode to true"]])
      else if mode = "light" then
        (.ok ("主题已设置为: " ++ mode),
          [["osascript", "-e",
            "tell application \"System Events\" to tell appearance preferences to set dark mode to false"]])
      else (.error (.notImplementedError "macOS自动主题模式暂不支持"), [])
    else if sys = "windows" then
      if mode = "dark" then
        (.ok ("主题已设置为: " ++ mode),
          [["reg", "add", "HKCU\\SOFTWARE\\Microsoft\\Windows\\CurrentVersion\\Themes\\Personalize",
             "/v", "AppsUseLightTheme", "/t", "REG_DWORD", "/d", "0", "/f"],
           ["reg", "add", "HKCU\\SOFTWARE\\Microsoft\\Windows\\CurrentVersion\\Themes\\Personalize",
             "/v", "SystemUsesLightTheme", "/t", "REG_DWORD", "/d", "0", "/f"]])
      else if mode = "light" then
        (.ok ("主题已设置为: " ++ mode),
          [["reg", "add", "HKCU\\SOFTWARE\\Microsoft\\Windows\\CurrentVersion\\Themes\\Personalize",
             "/v", "AppsUseLightTheme", "/t", "REG_DWORD", "/d", "1", "/f"],
           ["reg", "add", "HKCU\\SOFTWARE\\Microsoft\\Windows\\CurrentVersion\\Themes\\Personalize",
             "/v", "SystemUsesLightTheme", "/t", "REG_DWORD", "/d", "1", "/f"]])
      else (.error (.notImplementedError "Windows自动主题模式暂不支持"), [])
    else if sys = "linux" then
      if mode = "dark" then
        (.ok ("主题已设置为: " ++ mode),
          [["gsettings", "set", "org.gnome.desktop.interface", "gtk-theme", "Adwaita-dark"]])
      else if mode = "light" then
        (.ok ("主题已设置为: " ++ mode),
          [["gsettings", "set", "org.gnome.desktop.interface", "gtk-theme", "Adwaita"]])
      else (.error (.notImplementedError "Linux自动主题模式暂不支持"), [])
    else (.error (.valueError ("不支持的操作系统: " ++ sys)), [])
  else (.error (.valueError "无效的主题模式，可选值: light, dark, auto"), [])

/-- `MobileControlTool.make_call`: `phone_number or ""` then `dial`, with
exceptions caught into a failure envelope. -/
def make_call (sys : String) (phone : Option String) : Envelope × List Cmd :=
  match dial sys (phone.getD "") with
  | (.ok m, cmds) => (⟨true, m, none⟩, cmds)
  | (.error e, cmds) => (⟨false, "拨打电话异常: " ++ excStr e, none⟩, cmds)

/-- `MobileControlTool.send_sms`: defaulting as in `make_call`, wrapping
`SystemController.send_sms`. -/
def send_sms_tool (sys : String) (phone msg : Option String) : Envelope × List Cmd :=
  match send_sms sys (phone.getD "") (msg.getD "") with
  | (.ok m, cmds) => (⟨true, m, none⟩, cmds)
  | (.error e, cmds) => (⟨false, "发送短信异常: " ++ excStr e, none⟩, cmds)

/-- `MobileControlTool.control_volume`: an explicit `None` check, then
`int(level)`, then `set_volume`; every raised exception is caught into a
failure envelope (in this model platform commands succeed, so the
`CalledProcessError` branch is never taken). -/
def control_volume (sys : String) (level : PyVal) : Envelope × List Cmd :=
  match level with
  | .vnone => (⟨false, "控制音量异常: 音量等级必须是0-100之间的整数", none⟩, [])
  | v =>
    match pyToInt v with
    | .error e => (⟨false, "控制音量异常: " ++ excStr e, none⟩, [])
    | .ok n =>
      match set_volume sys n with
      | (.ok m, cmds) => (⟨true, m, none⟩, cmds)
      | (.error e, cmds) => (⟨false, "控制音量异常: " ++ excStr e, none⟩, cmds)

/-- `MobileControlTool.control_brightness`: as `control_volume` with
`set_brightness`. -/
def control_brightness (sys : String) (level : PyVal) : Envelope × List Cmd :=
  match level with
  | .vnone => (⟨false, "控制亮度异常: 亮度等级必须是0-100之间的整数", none⟩, [])
  | v =>
    match pyToInt v with
    | .error e => (⟨false, "控制亮度异常: " ++ excStr e, none⟩, [])
    | .ok n =>
      match set_brightness sys n with
      | (.ok m, cmds) => (⟨true, m, none⟩, cmds)
      | (.error e, cmds) => (⟨false, "控制亮度异常: " ++ excStr e, none⟩, cmds)

/-- `MobileControlTool.control_theme`: `mode or ""` then `set_theme`, with
exceptions caught into a failure envelope. -/
def control_theme (sys : String) (mode : Option String) : Envelope × List Cmd :=
  match set_theme sys (mode.getD "") with
  | (.ok m, cmds) => (⟨true, m, none⟩, cmds)
  | (.error e, cmds) => (⟨false, "控制主题异常: " ++ excStr e, none⟩, cmds)

/-- The flat tool-parameter mapping: each field is `tool_parameters.get(key)`
(`none` when absent).  Action identifiers and the unknown-action rendering are
modelled for string-valued `action` parameters. -/
structure ToolParams where
  action : Option String := none
  contact_name : Option String := none
  phone_number : Option String := none
  contact_alias : Option String := none
  sms_message : Option String := none
  volume_level : Option PyVal := none
  brightness_level : Option PyVal := none
  theme_mode : Option String := none

/-- Result of one dispatcher call: the envelope (before JSON serialization
into a text message), the phonebook file state after the call, and the side
effects performed. -/
structure InvokeOut where
  result : Envelope
  fs : FileState
  effs : List Eff

/-- `MobileControlTool._invoke`: dispatch on the `action` string.  The
`volume`/`brightness` branches apply `int()` before calling the handler; a
conversion failure there escapes to the outer handler, which produces the
`工具调用失败` envelope.  Any other action name falls through to the
unknown-action envelope without touching the phonebook or running a
command. -/
def toolInvoke (sys : String) (fs : FileState) (p : ToolParams) : InvokeOut :=
  if p.action = some "phonebook_list" then
    let (r, effs) := phonebook_list fs
    ⟨r, fs, effs⟩
  else if p.action = some "phonebook_add" then
    let (r, fs', effs) := phonebook_add fs p.contact_name p.phone_number (p.contact_alias.getD "")
    ⟨r, fs', effs⟩
  else if p.action = some "phonebook_delete" then
    let (r, fs', effs) := phonebook_delete fs p.contact_name
    ⟨r, fs', effs⟩
  else if p.action = some "call" then
    let (r, cmds) := make_call sys p.phone_number
    ⟨r, fs, cmds.map Eff.runCmd⟩
  else if p.action = some "sms" then
    let (r, cmds) := send_sms_tool sys p.phone_number p.sms_message
    ⟨r, fs, cmds.map Eff.runCmd⟩
  else if p.action = some "volume" then
    match p.volume_level with
    | none =>
      let (r, cmds) := control_volume sys .vnone
      ⟨r, fs, cmds.map Eff.runCmd⟩
    | some v =>
      match pyToInt v with
      | .error e => ⟨⟨false, "工具调用失败: " ++ excStr e, none⟩, fs, []⟩
      | .ok n =>
        let (r, cmds) := control_volume sys (.vint n)
        ⟨r, fs, cmds.map Eff.runCmd⟩
  else if p.action = some "brightness" then
    match p.brightness_level with
    | none =>
      let (r, cmds) := control_brightness sys .vnone
      ⟨r, fs, cmds.map Eff.runCmd⟩
    | some v =>
      match pyToInt v with
      | .error e => ⟨⟨false, "工具调用失败: " ++ excStr e, none⟩, fs, []⟩
      | .ok n =>
        let (r, cmds) := control_brightness sys (.vint n)
        ⟨r, fs, cmds.map Eff.runCmd⟩
  else if p.action = some "theme" then
    let (r, cmds) := control_theme sys p.theme_mode
    ⟨r, fs, cmds.map Eff.runCmd⟩
  else
    ⟨⟨false, "未知操作: " ++ (match p.action with | some s => s | none => "None"), none⟩, fs, []⟩

/-- Result of the `/api/mobile-control` route: envelope, HTTP status, file
state, effects. -/
structure ApiOut where
  result : Envelope
  status : Nat
  fs : FileState
  effs : List Eff

/-- The `mobile_control` route of `api_server.py`: missing body or falsy
`action` yield a 400; otherwise the same dispatch as `_invoke` (with an
`int()` failure surfacing as a 500 server-error envelope), and the
unknown-action fallthrough serialized with status 200. -/
def mobile_control (sys : String) (fs : FileState) (body : Option ToolParams) : ApiOut :=
  match body with
  | none => ⟨⟨false, "请求体不能为空", none⟩, 400, fs, []⟩
  | some p =>
    match p.action with
    | none => ⟨⟨false, "缺少action参数", none⟩, 400, fs, []⟩
    | some a =>
      if a = "" then ⟨⟨false, "缺少action参数", none⟩, 400, fs, []⟩
      else if a = "phonebook_list" then
        let (r, effs) := phonebook_list fs
        ⟨r, 200, fs, effs⟩
      else if a = "phonebook_add" then
        let (r, fs', effs) := phonebook_add fs p.contact_name p.phone_number (p.contact_alias.getD "")
        ⟨r, 200, fs', effs⟩
      else if a = "phonebook_delete" then
        let (r, fs', effs) := phonebook_delete fs p.contact_name
        ⟨r, 200, fs', effs⟩
      else if a = "call" then
        let (r, cmds) := make_call sys p.phone_number
        ⟨r, 200, fs, cmds.map Eff.runCmd⟩
      else if a = "sms" then
        let (r, cmds) := send_sms_tool sys p.phone_number p.sms_message
        ⟨r, 200, fs, cmds.map Eff.runCmd⟩
      else if a = "volume" then
        match p.volume_level with
        | none =>
          let (r, cmds) := control_volume sys .vnone
          ⟨r, 200, fs, cmds.map Eff.runCmd⟩
        | some v =>
          match pyToInt v with
          | .error e => ⟨⟨false, "服务器内部错误: " ++ excStr e, none⟩, 500, fs, []⟩
          | .ok n =>
            let (r, cmds) := control_volume sys (.vint n)
            ⟨r, 200, fs, cmds.map Eff.runCmd⟩
      else if a = "brightness" then
        match p.brightness_level with
        | none =>
          let (r, cmds) := control_brightness sys .vnone
          ⟨r, 200, fs, cmds.map Eff.runCmd⟩
        | some v =>
          match pyToInt v with
          | .error e => ⟨⟨false, "服务器内部错误: " ++ excStr e, none⟩, 500, fs, []⟩
          | .ok n =>
            let (r, cmds) := control_brightness sys (.vint n)
            ⟨r, 200, fs, cmds.map Eff.runCmd⟩
      else if a = "theme" then
        let (r, cmds) := control_theme sys p.theme_mode
        ⟨r, 200, fs, cmds.map Eff.runCmd⟩
      else ⟨⟨false, "未知操作: " ++ a, none⟩, 200, fs, []⟩

/-! ## Store lemmas -/

/-- A well-formed store payload: every value is a JSON object, given by its
entry list. -/
def objStore (ents : List (String × List (String × Json))) : List (String × Json) :=
  ents.map (fun e => (e.1, Json.obj e.2))

theorem storeDict_ok {fs : FileState} {kvs : List (String × Json)}
    (h : storeDict fs = some kvs) : readPhonebook fs = .ok (Json.obj kvs) := by
  unfold storeDict at h
  cases hr : readPhonebook fs with
  | error e => rw [hr] at h; exact absurd h (by simp)
  | ok j =>
    rw [hr] at h
    cases j with
    | obj kvs' => simp at h; subst h; rfl
    | null => exact absurd h (by simp)
    | bool b => exact absurd h (by simp)
    | num n => exact absurd h (by simp)
    | str s => exact absurd h (by simp)
    | arr xs => exact absurd h (by simp)

theorem readPhonebook_objStore (ents : List (String × List (String × Json))) :
    readPhonebook (.parsed (.obj (objStore ents))) = .ok (.obj (objStore ents)) := by
  cases ents with
  | nil => rfl
  | cons e rest => rfl

theorem storeDict_head_not_str {fs : FileState} {kvs : List (String × Json)}
    (h : storeDict fs = some kvs) : ∀ k s, kvs.head? ≠ some (k, Json.str s) := by
  intro k s hk
  cases fs with
  | missing =>
    simp [storeDict, readPhonebook] at h; subst h; simp at hk
  | corrupt =>
    simp [storeDict, readPhonebook] at h; subst h; simp at hk
  | parsed d =>
    cases d with
    | null => simp [storeDict, readPhonebook, pyTruthy] at h
    | bool b => cases b <;> simp [storeDict, readPhonebook, pyTruthy] at h
    | num n =>
      cases hb : (n != 0) <;> simp [storeDict, readPhonebook, pyTruthy, hb] at h
    | str s' =>
      cases hb : s'.isEmpty <;> simp [storeDict, readPhonebook, pyTruthy, hb] at h
    | arr xs =>
      cases xs <;> simp [storeDict, readPhonebook, pyTruthy] at h
    | obj kvs0 =>
      rcases kvs0 with _ | ⟨⟨k0, v0⟩, rest⟩
      · simp [storeDict, readPhonebook, pyTruthy] at h; subst h; simp at hk
      · cases v0 with
        | str s0 =>
          simp [storeDict, readPhonebook, pyTruthy] at h
          subst h
          simp [legacyEntry] at hk
        | null =>
          simp [storeDict, readPhonebook, pyTruthy] at h
          subst h; simp at hk
        | bool b =>
          simp [storeDict, readPhonebook, pyTruthy] at h
          subst h; simp at hk
        | num n =>
          simp [storeDict, readPhonebook, pyTruthy] at h
          subst h; simp at hk
        | arr ys =>
          simp [storeDict, readPhonebook, pyTruthy] at h
          subst h; simp at hk
        | obj o =>
          simp [storeDict, readPhonebook, pyTruthy] at h
          subst h; simp at hk

theorem storeDict_parsed_of_head {kvs : List (String × Json)}
    (h : ∀ k s, kvs.head? ≠ some (k, Json.str s)) :
    storeDict (.parsed (.obj kvs)) = some kvs := by
  cases kvs with
  | nil => rfl
  | cons a l =>
    obtain ⟨k0, v0⟩ := a
    have ht : pyTruthy (Json.obj ((k0, v0) :: l)) = true := by simp [pyTruthy]
    cases v0 with
    | str s => exact absurd rfl (h k0 s)
    | null => rfl
    | bool b => rfl
    | num n => rfl
    | arr xs => rfl
    | obj o => rfl

theorem dictInsert_append {kvs : List (String × Json)} {k : String} (v : Json)
    (h : kvs.any (fun kv => kv.1 = k) = false) :
    dictInsert kvs k v = kvs ++ [(k, v)] := by
  induction kvs with
  | nil => rfl
  | cons a rest ih =>
    simp only [List.any_cons, Bool.or_eq_false_iff] at h
    obtain ⟨h1, h2⟩ := h
    have hk : a.1 ≠ k := by
      intro he; rw [he] at h1; simp at h1
    obtain ⟨a1, a2⟩ := a
    simp only [dictInsert, if_neg hk, ih h2, List.cons_append]

theorem lookup_eq_none_of_any_false {kvs : List (String × Json)} {k : String}
    (h : kvs.any (fun kv => kv.1 = k) = false) : kvs.lookup k = none := by
  induction kvs with
  | nil => rfl
  | cons a rest ih =>
    simp only [List.any_cons, Bool.or_eq_false_iff] at h
    obtain ⟨h1, h2⟩ := h
    have hk : (k == a.1) = false := by
      rcases hb : (k == a.1) with _ | _
      · rfl
      · exfalso
        have hek : a.1 = k := (eq_of_beq hb).symm
        rw [hek] at h1
        simp at h1
    obtain ⟨a1, a2⟩ := a
    simp only [List.lookup] at *
    rw [hk]
    exact ih h2

theorem head_not_str_append {kvs : List (String × Json)}
    (h : ∀ k s, kvs.head? ≠ some (k, Json.str s)) (n : String) (i : List (String × Json)) :
    ∀ k s, (kvs ++ [(n, Json.obj i)]).head? ≠ some (k, Json.str s) := by
  intro k s hk
  cases kvs with
  | nil => simp at hk
  | cons a rest =>
    simp at hk
    exact h k s (by simp [hk])

/-- C1 helper: contents of the two branches of `add_contact` over a store
state that denotes a mapping. -/
theorem add_contact_spec {fs : FileState} {kvs : List (String × Json)}
    (h : storeDict fs = some kvs) (c : Contact) :
    (kvs.any (fun kv => kv.1 = c.name) = true → add_contact fs c = ⟨.ok false, fs⟩) ∧
    (kvs.any (fun kv => kv.1 = c.name) = false →
      add_contact fs c = ⟨.ok true, .parsed (Json.obj (kvs ++ [(c.name, contactInfo c)]))⟩) := by
  have hr := storeDict_ok h
  constructor
  · intro hdup
    simp only [add_contact, hr, hdup, if_true]
  · intro hfresh
    simp only [add_contact, hr, hfresh, Bool.false_eq_true, if_false,
      dictInsert_append (contactInfo c) hfresh]

/-- C1: with the store denoting the mapping `kvs`, adding a contact whose
name is already a key (case-sensitive string equality) returns `False` and
leaves the file state — hence the persisted mapping — unchanged; adding a
fresh name returns `True` and the persisted mapping becomes the old mapping
extended with `name ↦ {phone, alias}`. -/
theorem add_contact_uniqueness {fs : FileState} {kvs : List (String × Json)}
    (h : storeDict fs = some kvs) (c : Contact) :
    (kvs.any (fun kv => kv.1 = c.name) = true →
      add_contact fs c = ⟨.ok false, fs⟩ ∧ storeDict (add_contact fs c).fs = some kvs) ∧
    (kvs.any (fun kv => kv.1 = c.name) = false →
      add_contact fs c = ⟨.ok true, .parsed (Json.obj (kvs ++ [(c.name, contactInfo c)]))⟩ ∧
      storeDict (add_contact fs c).fs = some (kvs ++ [(c.name, contactInfo c)])) := by
  obtain ⟨hdup, hfresh⟩ := add_contact_spec h c
  constructor
  · intro hd
    refine ⟨hdup hd, ?_⟩
    rw [hdup hd]
    exact h
  · intro hf
    refine ⟨hfresh hf, ?_⟩
    rw [hfresh hf]
    exact storeDict_parsed_of_head
      (head_not_str_append (storeDict_head_not_str h) c.name _)

/-- C1 witness: a concrete run of both branches on the store holding only
`Alice`. -/
theorem add_contact_uniqueness_witness :
    let fsA := FileState.parsed (Json.obj [("Alice", Json.obj [("phone", Json.str "1"), ("alias", Json.str "")])])
    let kvsA : List (String × Json) := [("Alice", Json.obj [("phone", Json.str "1"), ("alias", Json.str "")])]
    let cA : Contact := ⟨"Alice", Json.str "2", Json.str ""⟩
    let cB : Contact := ⟨"Bob", Json.str "3", Json.str ""⟩
    (add_contact fsA cA = ⟨.ok false, fsA⟩ ∧ storeDict (add_contact fsA cA).fs = some kvsA) ∧
    (add_contact fsA cB = ⟨.ok true, .parsed (Json.obj (kvsA ++ [("Bob", contactInfo cB)]))⟩ ∧
      storeDict (add_contact fsA cB).fs = some (kvsA ++ [("Bob", contactInfo cB)])) := by
  intro fsA kvsA cA cB
  have h : storeDict fsA = some kvsA := rfl
  exact ⟨(add_contact_uniqueness h cA).1 rfl, (add_contact_uniqueness h cB).2 rfl⟩

theorem extractContacts_objStore (ents : List (String × List (String × Json))) :
    extractContacts (objStore ents) =
      .ok (ents.map fun e => ⟨e.1, dictGetD e.2 "phone", dictGetD e.2 "alias"⟩) := by
  induction ents with
  | nil => rfl
  | cons e rest ih =>
    simp only [objStore] at ih ⊢
    simp only [List.map_cons, extractContacts, ih]
    rfl

/-- `list_contacts` over a store denoting a well-formed mapping (every value
an object): one `Contact` per entry, fields defaulted to `""` when absent. -/
theorem list_contacts_objStore {fs : FileState} {ents : List (String × List (String × Json))}
    (h : readPhonebook fs = .ok (.obj (objStore ents))) :
    list_contacts fs =
      .ok (ents.map fun e => ⟨e.1, dictGetD e.2 "phone", dictGetD e.2 "alias"⟩) := by
  unfold list_contacts
  rw [h]
  show extractContacts (objStore ents) = _
  exact extractContacts_objStore ents

theorem lookup_append_right {l1 l2 : List (String × Json)} {k : String}
    (h : l1.any (fun kv => kv.1 = k) = false) : (l1 ++ l2).lookup k = l2.lookup k := by
  induction l1 with
  | nil => rfl
  | cons a rest ih =>
    simp only [List.any_cons, Bool.or_eq_false_iff] at h
    obtain ⟨h1, h2⟩ := h
    have hk : (k == a.1) = false := by
      rcases hb : (k == a.1) with _ | _
      · rfl
      · exfalso
        have hek : a.1 = k := (eq_of_beq hb).symm
        rw [hek] at h1
        simp at h1
    obtain ⟨a1, a2⟩ := a
    simp only [List.cons_append, List.lookup]
    rw [hk]
    exact ih h2

theorem dictRemove_eq_self {l : List (String × Json)} {k : String}
    (h : l.any (fun kv => kv.1 = k) = false) : dictRemove l k = l := by
  induction l with
  | nil => rfl
  | cons a rest ih =>
    simp only [List.any_cons, Bool.or_eq_false_iff] at h
    obtain ⟨h1, h2⟩ := h
    have ha : a.1 ≠ k := by intro he; rw [he] at h1; simp at h1
    simp only [dictRemove] at ih ⊢
    rw [List.filter_cons, if_pos (decide_eq_true ha), ih h2]

theorem delete_contact_found {fs : FileState} {kvs info : List (String × Json)} {name : String}
    (h : storeDict fs = some kvs) (hlk : kvs.lookup name = some (Json.obj info)) :
    delete_contact fs name =
      ⟨.ok (some ⟨name, dictGetD info "phone", dictGetD info "alias"⟩),
        .parsed (.obj (dictRemove kvs name)), true⟩ := by
  have hr := storeDict_ok h
  simp only [delete_contact, hr, hlk]

theorem delete_contact_absent {fs : FileState} {kvs : List (String × Json)} {name : String}
    (h : storeDict fs = some kvs) (hlk : kvs.lookup name = none) :
    delete_contact fs name = ⟨.ok none, fs, false⟩ := by
  have hr := storeDict_ok h
  simp only [delete_contact, hr, hlk]

/-- C5: with the store denoting the mapping `kvs`, deleting an absent name
returns `None` and leaves the persisted mapping untouched (nothing is
written); deleting a present name returns the removed contact's stored phone
and alias and persists the mapping without that entry. -/
theorem delete_contact_result (name : String) {fs : FileState} {kvs : List (String × Json)}
    (h : storeDict fs = some kvs) :
    (kvs.lookup name = none → delete_contact fs name = ⟨.ok none, fs, false⟩) ∧
    (∀ p a, kvs.lookup name = some (Json.obj [("phone", Json.str p), ("alias", Json.str a)]) →
      delete_contact fs name =
        ⟨.ok (some ⟨name, Json.str p, Json.str a⟩), .parsed (.obj (dictRemove kvs name)), true⟩) := by
  constructor
  · intro hlk
    exact delete_contact_absent h hlk
  · intro p a hlk
    exact delete_contact_found h hlk

/-- C5 witness: both branches on the store holding only `Alice`. -/
theorem delete_contact_result_witness :
    let fsA := FileState.parsed (Json.obj [("Alice", Json.obj [("phone", Json.str "1"), ("alias", Json.str "a")])])
    let kvsA : List (String × Json) := [("Alice", Json.obj [("phone", Json.str "1"), ("alias", Json.str "a")])]
    delete_contact fsA "Bob" = ⟨.ok none, fsA, false⟩ ∧
    delete_contact fsA "Alice" =
      ⟨.ok (some ⟨"Alice", Json.str "1", Json.str "a"⟩), .parsed (.obj (dictRemove kvsA "Alice")), true⟩ := by
  intro fsA kvsA
  have h : storeDict fsA = some kvsA := rfl
  exact ⟨(delete_contact_result "Bob" h).1 rfl, (delete_contact_result "Alice" h).2 "1" "a" rfl⟩

/-- C2: starting from any store state denoting a well-formed mapping in which
`c.name` is not yet a key, `add(c)` followed by `list()` yields a sequence
containing `c`, and `add(c)` followed by `delete(c.name)` followed by `list()`
yields a sequence with no contact named `c.name`. -/
theorem add_delete_roundtrip (c : Contact) {fs : FileState}
    {ents : List (String × List (String × Json))}
    (h : storeDict fs = some (objStore ents))
    (hfresh : (objStore ents).any (fun kv => kv.1 = c.name) = false) :
    ∃ cs, list_contacts (add_contact fs c).fs = .ok cs ∧ c ∈ cs ∧
      ∃ cs', list_contacts (delete_contact (add_contact fs c).fs c.name).fs = .ok cs' ∧
        ∀ c' ∈ cs', c'.name ≠ c.name := by
  obtain ⟨n, p, a⟩ := c
  simp only at hfresh ⊢
  have hadd := (add_contact_spec h ⟨n, p, a⟩).2 hfresh
  set ents1 := ents ++ [(n, [("phone", p), ("alias", a)])] with hents1
  have hobj1 : objStore ents ++ [(n, contactInfo ⟨n, p, a⟩)] = objStore ents1 := by
    simp [objStore, contactInfo, hents1]
  have hfs1 : (add_contact fs ⟨n, p, a⟩).fs = .parsed (.obj (objStore ents1)) := by
    rw [hadd, hobj1]
  have hl1 := list_contacts_objStore (readPhonebook_objStore ents1)
  refine ⟨_, by rw [hfs1]; exact hl1, ?_, ?_⟩
  · have hmem : (n, ([("phone", p), ("alias", a)] : List (String × Json))) ∈ ents1 := by
      simp [hents1]
    have := List.mem_map_of_mem
      (fun e => (⟨e.1, dictGetD e.2 "phone", dictGetD e.2 "alias"⟩ : Contact)) hmem
    simpa using this
  · have hsd1 : storeDict (.parsed (.obj (objStore ents1))) = some (objStore ents1) := by
      rw [hobj1.symm]
      exact storeDict_parsed_of_head
        (head_not_str_append (storeDict_head_not_str h) n _)
    have hlk : (objStore ents1).lookup n = some (contactInfo ⟨n, p, a⟩) := by
      rw [hobj1.symm, lookup_append_right hfresh]
      simp [List.lookup]
    have hdel := delete_contact_found hsd1 hlk
    have hrm : dictRemove (objStore ents1) n = objStore ents := by
      rw [hobj1.symm]
      simp only [dictRemove, List.filter_append]
      rw [show List.filter (fun kv => decide (kv.1 ≠ n)) (objStore ents) = objStore ents from
        dictRemove_eq_self hfresh]
      simp [contactInfo]
    have hl2 := list_contacts_objStore (readPhonebook_objStore ents)
    refine ⟨ents.map (fun e => ⟨e.1, dictGetD e.2 "phone", dictGetD e.2 "alias"⟩), ?_, ?_⟩
    · rw [hfs1, hdel]
      simp only [hrm]
      exact hl2
    · intro c' hc'
      obtain ⟨e, he, hce⟩ := List.mem_map.mp hc'
      have hne : ∀ e ∈ ents, ¬(e.1 = n) := by
        intro x hx
        have hmx : ((x.1, Json.obj x.2) : String × Json) ∈ objStore ents :=
          List.mem_map_of_mem _ hx
        have := List.any_eq_false.mp hfresh _ hmx
        simpa using this
      rw [← hce]
      exact hne e he

/-- C2 witness: round-trip of `Bob` through the empty store. -/
theorem add_delete_roundtrip_witness :
    ∃ cs, list_contacts (add_contact (.parsed (.obj [])) ⟨"Bob", Json.str "555", Json.str ""⟩).fs = .ok cs ∧
      (⟨"Bob", Json.str "555", Json.str ""⟩ : Contact) ∈ cs ∧
      ∃ cs', list_contacts (delete_contact
          (add_contact (.parsed (.obj [])) ⟨"Bob", Json.str "555", Json.str ""⟩).fs "Bob").fs = .ok cs' ∧
        ∀ c' ∈ cs', c'.name ≠ "Bob" :=
  @add_delete_roundtrip ⟨"Bob", Json.str "555", Json.str ""⟩ (.parsed (.obj [])) [] rfl rfl

/-- C3 counterexample: a backing file holding valid JSON of an unexpected
shape (the array `[1]` — invalid structured data for the store, but parseable
JSON) makes `list_contacts` raise `AttributeError` at `data.values()` instead
of returning the empty sequence. -/
theorem list_corruption_counterexample :
    list_contacts (FileState.parsed (Json.arr [Json.num 1])) = .error PyExc.attributeError ∧
    list_contacts (FileState.parsed (Json.arr [Json.num 1])) ≠ .ok [] :=
  ⟨rfl, fun h => Except.noConfusion h⟩

/-- C3 (amended): a missing backing file, or one whose content is not
parseable as JSON at all, yields the empty sequence from `list_contacts`
without an error; content that parses to JSON of an unexpected shape is *not*
tolerated (see the counterexample). -/
theorem list_corruption_tolerance :
    list_contacts FileState.missing = .ok [] ∧ list_contacts FileState.corrupt = .ok [] :=
  ⟨rfl, rfl⟩

theorem extractContacts_legacy (l : List (String × Json)) :
    extractContacts (l.map legacyEntry) = .ok (l.map fun kv => ⟨kv.1, kv.2, Json.str ""⟩) := by
  induction l with
  | nil => rfl
  | cons kv rest ih =>
    simp only [List.map_cons, legacyEntry, extractContacts, ih]
    rfl

/-- C4: a store whose loaded JSON maps every name directly to a plain string
is reinterpreted, entry for entry, as `{phone: <string>, alias: ""}`: listing
yields one `Contact` per entry with that phone and an empty alias; the read
issues no file write (the conversion is in memory only — `list_contacts`
returns no file state at all, and the `phonebook_list` wrapper records a lone
read effect).  In particular the store `{"Alice": "12345"}` lists as exactly
one contact `Alice / 12345 / ""`. -/
theorem legacy_upgrade_on_list :
    (∀ ents : List (String × String),
      list_contacts (.parsed (.obj (ents.map fun e => (e.1, Json.str e.2)))) =
        .ok (ents.map fun e => ⟨e.1, Json.str e.2, Json.str ""⟩) ∧
      (phonebook_list (.parsed (.obj (ents.map fun e => (e.1, Json.str e.2))))).2 = [Eff.fsRead]) ∧
    list_contacts (.parsed (.obj [("Alice", Json.str "12345")])) =
      .ok [⟨"Alice", Json.str "12345", Json.str ""⟩] := by
  have hmain : ∀ ents : List (String × String),
      list_contacts (.parsed (.obj (ents.map fun e => (e.1, Json.str e.2)))) =
        .ok (ents.map fun e => ⟨e.1, Json.str e.2, Json.str ""⟩) := by
    intro ents
    cases ents with
    | nil => rfl
    | cons e rest =>
      have hr : readPhonebook (.parsed (.obj (((e :: rest)).map fun x => (x.1, Json.str x.2)))) =
          .ok (.obj ((((e :: rest)).map fun x => (x.1, Json.str x.2)).map legacyEntry)) := by
        simp [readPhonebook, pyTruthy]
      unfold list_contacts
      rw [hr]
      show extractContacts ((((e :: rest)).map fun x => (x.1, Json.str x.2)).map legacyEntry) = _
      rw [extractContacts_legacy]
      simp [List.map_map]
  refine ⟨fun ents => ⟨hmain ents, ?_⟩, by simpa using hmain [("Alice", "12345")]⟩
  unfold phonebook_list
  cases hl : list_contacts (.parsed (.obj (ents.map fun e => (e.1, Json.str e.2)))) with
  | error e => rfl
  | ok cs => cases cs <;> rfl

theorem lookup_objStore (ents : List (String × List (String × Json))) (k : String) :
    (objStore ents).lookup k = (ents.lookup k).map Json.obj := by
  induction ents with
  | nil => rfl
  | cons a rest ih =>
    simp only [objStore] at ih ⊢
    obtain ⟨a1, a2⟩ := a
    cases hb : (k == a1) <;> simp [List.lookup, hb, ih]

theorem lookup_of_mem_nodup {l : List (String × List (String × Json))}
    {n : String} {i : List (String × Json)}
    (hnd : (l.map Prod.fst).Nodup) (hm : (n, i) ∈ l) : l.lookup n = some i := by
  induction l with
  | nil => exact absurd hm (List.not_mem_nil _)
  | cons a rest ih =>
    simp only [List.map_cons, List.nodup_cons] at hnd
    obtain ⟨hna, hnr⟩ := hnd
    rcases List.mem_cons.mp hm with he | hr
    · rw [← he]
      simp [List.lookup]
    · have hne : (n == a.1) = false := by
        rcases hb : (n == a.1) with _ | _
        · rfl
        · exfalso
          have : n = a.1 := eq_of_beq hb
          apply hna
          rw [← this]
          exact List.mem_map_of_mem Prod.fst hr
      obtain ⟨a1, a2⟩ := a
      simp only [List.lookup]
      rw [hne]
      exact ih hnr hr

/-- C10: a stored entry whose value object lacks the `phone` or the `alias`
key is still listed and deleted without failing; the contact built from it
carries `info.get(key, "")`, which is the empty string exactly when the key
is absent. -/
theorem missing_fields_default {fs : FileState} {ents : List (String × List (String × Json))}
    {n : String} {ikvs : List (String × Json)}
    (h : storeDict fs = some (objStore ents))
    (hnd : (ents.map Prod.fst).Nodup) (hm : (n, ikvs) ∈ ents) :
    ∃ cs, list_contacts fs = .ok cs ∧
      (⟨n, dictGetD ikvs "phone", dictGetD ikvs "alias"⟩ : Contact) ∈ cs ∧
      (delete_contact fs n).res = .ok (some ⟨n, dictGetD ikvs "phone", dictGetD ikvs "alias"⟩) ∧
      (ikvs.lookup "phone" = none → dictGetD ikvs "phone" = Json.str "") ∧
      (ikvs.lookup "alias" = none → dictGetD ikvs "alias" = Json.str "") := by
  have hr := storeDict_ok h
  have hl := list_contacts_objStore hr
  refine ⟨_, hl, ?_, ?_, ?_, ?_⟩
  · exact List.mem_map_of_mem
      (fun e => (⟨e.1, dictGetD e.2 "phone", dictGetD e.2 "alias"⟩ : Contact)) hm
  · have hlk : (objStore ents).lookup n = some (Json.obj ikvs) := by
      rw [lookup_objStore, lookup_of_mem_nodup hnd hm]
      rfl
    rw [delete_contact_found h hlk]
  · intro hp
    simp [dictGetD, hp]
  · intro ha
    simp [dictGetD, ha]

/-- C10 witness: the store holding one entry `X` whose value object has
neither a `phone` nor an `alias` key. -/
theorem missing_fields_default_witness :
    ∃ cs, list_contacts (.parsed (.obj [("X", Json.obj [])])) = .ok cs ∧
      (⟨"X", dictGetD [] "phone", dictGetD [] "alias"⟩ : Contact) ∈ cs ∧
      (delete_contact (.parsed (.obj [("X", Json.obj [])])) "X").res =
        .ok (some ⟨"X", dictGetD [] "phone", dictGetD [] "alias"⟩) ∧
      (List.lookup "phone" ([] : List (String × Json)) = none → dictGetD [] "phone" = Json.str "") ∧
      (List.lookup "alias" ([] : List (String × Json)) = none → dictGetD [] "alias" = Json.str "") :=
  @missing_fields_default (.parsed (.obj [("X", Json.obj [])])) [("X", [])] "X" [] rfl
    (List.nodup_singleton _) (List.mem_singleton.mpr rfl)

/-- C6 counterexample: the non-integer inputs `"50"`, `" 50"` and `"5_0"`
(strings) are *not* rejected — `int(level)` converts each of them, validation
passes, and the platform command is issued. -/
theorem percentage_validation_counterexample :
    control_volume "linux" (PyVal.vstr "50") =
      (⟨true, "音量已设置为 50%", none⟩, [["amixer", "sset", "Master", "50%"]]) ∧
    control_volume "linux" (PyVal.vstr " 50") =
      (⟨true, "音量已设置为 50%", none⟩, [["amixer", "sset", "Master", "50%"]]) ∧
    control_volume "linux" (PyVal.vstr "5_0") =
      (⟨true, "音量已设置为 50%", none⟩, [["amixer", "sset", "Master", "50%"]]) ∧
    control_brightness "linux" (PyVal.vstr "50") =
      (⟨true, "亮度已设置为 50%", none⟩, [["brightnessctl", "set", "50%"]]) :=
  ⟨rfl, rfl, rfl, rfl⟩

/-- C6 (amended): `control_volume`/`control_brightness` reject `-1`, `101`, a
missing level, and any input `int()` cannot convert (such as a non-numeric
string; stated over ASCII input, where the embedded `int()` is exact) with
`success: false` and no platform command; an input `int()` does convert — a
numeric string, even whitespace-padded or underscore-separated, or a boolean
— is truncated to that integer and accepted when in range; the levels `0`
and `100` are accepted (on a supported platform the command is issued and
success reported). -/
theorem percentage_validation :
    (∀ sys : String,
      control_volume sys (.vint (-1)) =
        (⟨false, "控制音量异常: 音量等级必须是0-100之间的整数", none⟩, []) ∧
      control_volume sys (.vint 101) =
        (⟨false, "控制音量异常: 音量等级必须是0-100之间的整数", none⟩, []) ∧
      control_volume sys .vnone =
        (⟨false, "控制音量异常: 音量等级必须是0-100之间的整数", none⟩, []) ∧
      control_brightness sys (.vint (-1)) =
        (⟨false, "控制亮度异常: 亮度等级必须是0-100之间的整数", none⟩, []) ∧
      control_brightness sys (.vint 101) =
        (⟨false, "控制亮度异常: 亮度等级必须是0-100之间的整数", none⟩, []) ∧
      control_brightness sys .vnone =
        (⟨false, "控制亮度异常: 亮度等级必须是0-100之间的整数", none⟩, [])) ∧
    (∀ (sys s : String), (∀ c ∈ s.toList, c.toNat < 128) → pyParseInt s = none →
      (control_volume sys (.vstr s)).1.success = false ∧
      (control_volume sys (.vstr s)).2 = [] ∧
      (control_brightness sys (.vstr s)).1.success = false ∧
      (control_brightness sys (.vstr s)).2 = []) ∧
    control_volume "linux" (.vint 0) =
      (⟨true, "音量已设置为 0%", none⟩, [["amixer", "sset", "Master", "0%"]]) ∧
    control_volume "linux" (.vint 100) =
      (⟨true, "音量已设置为 100%", none⟩, [["amixer", "sset", "Master", "100%"]]) ∧
    control_brightness "linux" (.vint 0) =
      (⟨true, "亮度已设置为 0%", none⟩, [["brightnessctl", "set", "0%"]]) ∧
    control_brightness "linux" (.vint 100) =
      (⟨true, "亮度已设置为 100%", none⟩, [["brightnessctl", "set", "100%"]]) := by
  refine ⟨fun sys => ⟨?_, ?_, rfl, ?_, ?_, rfl⟩,
    fun sys s _ hs => ⟨?_, ?_, ?_, ?_⟩, rfl, rfl, rfl, rfl⟩
  · simp [control_volume, pyToInt, set_volume, excStr]
  · simp [control_volume, pyToInt, set_volume, excStr]
  · simp [control_brightness, pyToInt, set_brightness, excStr]
  · simp [control_brightness, pyToInt, set_brightness, excStr]
  · simp [control_volume, pyToInt, hs]
  · simp [control_volume, pyToInt, hs]
  · simp [control_brightness, pyToInt, hs]
  · simp [control_brightness, pyToInt, hs]

/-- C6 witness: concrete rejections on `windows` and one non-numeric ASCII
string. -/
theorem percentage_validation_witness :
    control_volume "windows" (.vint (-1)) =
      (⟨false, "控制音量异常: 音量等级必须是0-100之间的整数", none⟩, []) ∧
    (∀ c ∈ "abc".toList, c.toNat < 128) ∧ pyParseInt "abc" = none ∧
    (control_brightness "windows" (.vstr "abc")).1.success = false ∧
    (control_brightness "windows" (.vstr "abc")).2 = [] :=
  ⟨(percentage_validation.1 "windows").1, by decide, rfl,
    (percentage_validation.2.1 "windows" "abc" (by decide) rfl).2.2.1,
    (percentage_validation.2.1 "windows" "abc" (by decide) rfl).2.2.2⟩

/-- C8: every theme mode outside `{light, dark, auto}` is rejected by the
`ValueError` raised before any platform command is constructed, and
`control_theme` reports the failure envelope with no command issued, on every
platform. -/
theorem invalid_theme_rejected (sys mode : String)
    (h : mode ∉ (["light", "dark", "auto"] : List String)) :
    control_theme sys (some mode) =
      (⟨false, "控制主题异常: 无效的主题模式，可选值: light, dark, auto", none⟩, []) := by
  have hst : set_theme sys mode = (.error (.valueError "无效的主题模式，可选值: light, dark, auto"), []) := by
    unfold set_theme
    rw [if_neg h]
  unfold control_theme
  rw [show (some mode).getD "" = mode from rfl, hst]
  rfl

/-- C8 witness: the mode `blue` on `linux`. -/
theorem invalid_theme_rejected_witness :
    control_theme "linux" (some "blue") =
      (⟨false, "控制主题异常: 无效的主题模式，可选值: light, dark, auto", none⟩, []) :=
  invalid_theme_rejected "linux" "blue" (by decide)

/-! ## The dispatcher-boundary store invariant (C7) -/

theorem storeDict_objStore (l : List (String × List (String × Json))) :
    storeDict (.parsed (.obj (objStore l))) = some (objStore l) := by
  unfold storeDict
  rw [readPhonebook_objStore]

theorem optStr_truthy {o : Option String} (h : pyTruthyOptStr o = true) :
    ∃ s, o = some s ∧ s ≠ "" := by
  cases o with
  | none => simp [pyTruthyOptStr] at h
  | some s =>
    refine ⟨s, rfl, fun he => ?_⟩
    rw [he] at h
    exact absurd h (by decide)

/-- A dispatcher-written entry: name, phone and alias as plain strings, in
the `{"phone": ..., "alias": ...}` shape `add_contact` persists. -/
def canonEnt (e : String × String × String) : String × List (String × Json) :=
  (e.1, [("phone", Json.str e.2.1), ("alias", Json.str e.2.2)])

/-- A store every entry of which was written by the dispatcher. -/
def canonStore (ents : List (String × String × String)) : List (String × Json) :=
  objStore (ents.map canonEnt)

/-- The store states reachable from the empty store through the dispatcher
boundary (`phonebook_add` / `phonebook_delete` of `MobileControlTool`). -/
inductive ReachableStore : FileState → Prop where
  | init : ReachableStore (.parsed (.obj []))
  | add (fs : FileState) (name phone : Option String) (al : String) :
      ReachableStore fs → ReachableStore (phonebook_add fs name phone al).2.1
  | del (fs : FileState) (name : Option String) :
      ReachableStore fs → ReachableStore (phonebook_delete fs name).2.1

/-- The invariant: the file holds exactly a list of dispatcher-shaped entries
with pairwise-distinct, non-empty names and non-empty phones. -/
def GoodStore (fs : FileState) : Prop :=
  ∃ ents : List (String × String × String),
    fs = .parsed (.obj (canonStore ents)) ∧
    (ents.map Prod.fst).Nodup ∧
    ∀ e ∈ ents, e.1 ≠ "" ∧ e.2.1 ≠ ""

theorem not_mem_keys_of_any_false {ents : List (String × String × String)} {ns : String}
    (h : (canonStore ents).any (fun kv => kv.1 = ns) = false) :
    ns ∉ ents.map Prod.fst := by
  intro hmem
  obtain ⟨e, he, h1⟩ := List.mem_map.mp hmem
  have hmem2 : ((e.1, Json.obj (canonEnt e).2) : String × Json) ∈ canonStore ents := by
    unfold canonStore objStore
    exact List.mem_map_of_mem _ (List.mem_map_of_mem canonEnt he)
  have := List.any_eq_false.mp h _ hmem2
  simp [h1] at this

theorem dictRemove_canonStore (ents : List (String × String × String)) (k : String) :
    dictRemove (canonStore ents) k = canonStore (ents.filter (fun e => e.1 ≠ k)) := by
  induction ents with
  | nil => rfl
  | cons a rest ih =>
    by_cases ha : a.1 = k
    · simp only [canonStore, objStore, List.map_cons, dictRemove, List.filter_cons] at ih ⊢
      rw [if_neg (by simp [canonEnt, ha]), if_neg (by simp [ha])]
      exact ih
    · simp only [canonStore, objStore, List.map_cons, dictRemove, List.filter_cons] at ih ⊢
      rw [if_pos (by simp [canonEnt, ha]), if_pos (by simp [ha])]
      simp only [List.map_cons]
      rw [ih]

theorem phonebook_add_preserves (fs : FileState) (name phone : Option String) (al : String)
    (hg : GoodStore fs) : GoodStore (phonebook_add fs name phone al).2.1 := by
  obtain ⟨ents, hfs, hnd, hne⟩ := hg
  by_cases hb : (!pyTruthyOptStr name || !pyTruthyOptStr phone) = true
  · unfold phonebook_add
    rw [if_pos hb]
    exact ⟨ents, hfs, hnd, hne⟩
  · have hname : pyTruthyOptStr name = true := by
      cases h1 : pyTruthyOptStr name
      · exact absurd (by simp [h1]) hb
      · rfl
    have hphone : pyTruthyOptStr phone = true := by
      cases h1 : pyTruthyOptStr phone
      · exact absurd (by simp [h1]) hb
      · rfl
    obtain ⟨ns, hns, hnse⟩ := optStr_truthy hname
    obtain ⟨ps, hps, hpse⟩ := optStr_truthy hphone
    subst hns hps hfs
    have hsd := storeDict_objStore (ents.map canonEnt)
    unfold phonebook_add
    rw [if_neg hb]
    simp only [Option.getD_some]
    cases hdup : (canonStore ents).any (fun kv => kv.1 = ns) with
    | true =>
      have hadd := (add_contact_spec hsd ⟨ns, .str ps, .str al⟩).1 hdup
      rw [show objStore (ents.map canonEnt) = canonStore ents from rfl] at hadd
      rw [hadd]
      exact ⟨ents, rfl, hnd, hne⟩
    | false =>
      have hadd := (add_contact_spec hsd ⟨ns, .str ps, .str al⟩).2 hdup
      rw [show objStore (ents.map canonEnt) = canonStore ents from rfl] at hadd
      rw [hadd]
      refine ⟨ents ++ [(ns, ps, al)], ?_, ?_, ?_⟩
      · simp [canonStore, objStore, canonEnt, contactInfo]
      · rw [List.map_append]
        refine List.Nodup.append hnd (List.nodup_singleton _) ?_
        intro x hx hx2
        rw [List.mem_singleton.mp hx2] at hx
        exact not_mem_keys_of_any_false hdup hx
      · intro e he
        rcases List.mem_append.mp he with h1 | h1
        · exact hne e h1
        · rw [List.mem_singleton.mp h1]
          exact ⟨hnse, hpse⟩

theorem phonebook_delete_preserves (fs : FileState) (name : Option String)
    (hg : GoodStore fs) : GoodStore (phonebook_delete fs name).2.1 := by
  obtain ⟨ents, hfs, hnd, hne⟩ := hg
  by_cases hb : (!pyTruthyOptStr name) = true
  · unfold phonebook_delete
    rw [if_pos hb]
    exact ⟨ents, hfs, hnd, hne⟩
  · have hname : pyTruthyOptStr name = true := by
      cases h1 : pyTruthyOptStr name
      · exact absurd (by simp [h1]) hb
      · rfl
    obtain ⟨ns, hns, _⟩ := optStr_truthy hname
    subst hns hfs
    have hsd := storeDict_objStore (ents.map canonEnt)
    rw [show objStore (ents.map canonEnt) = canonStore ents from rfl] at hsd
    unfold phonebook_delete
    rw [if_neg hb]
    simp only [Option.getD_some]
    cases hlk : (ents.map canonEnt).lookup ns with
    | none =>
      have hlk' : (canonStore ents).lookup ns = none := by
        unfold canonStore
        rw [lookup_objStore, hlk]
        rfl
      rw [delete_contact_absent hsd hlk']
      exact ⟨ents, rfl, hnd, hne⟩
    | some i =>
      have hlk' : (canonStore ents).lookup ns = some (Json.obj i) := by
        unfold canonStore
        rw [lookup_objStore, hlk]
        rfl
      rw [delete_contact_found hsd hlk']
      refine ⟨ents.filter (fun e => e.1 ≠ ns), ?_, ?_, ?_⟩
      · rw [dictRemove_canonStore]
      · exact hnd.sublist (List.Sublist.map Prod.fst (List.filter_sublist _))
      · intro e he
        exact hne e (List.mem_of_mem_filter he)

/-- C7: in every store state reachable from the empty store through the
dispatcher boundary, listing succeeds, the listed names are pairwise
distinct, and every listed contact has a non-empty name and a non-empty
(string) phone. -/
theorem dispatcher_store_invariant {fs : FileState} (h : ReachableStore fs) :
    ∃ cs, list_contacts fs = .ok cs ∧ (cs.map Contact.name).Nodup ∧
      ∀ c ∈ cs, c.name ≠ "" ∧ ∃ p, c.phone = Json.str p ∧ p ≠ "" := by
  have hg : GoodStore fs := by
    induction h with
    | init => exact ⟨[], rfl, List.nodup_nil, by simp⟩
    | add fs name phone al hr ih => exact phonebook_add_preserves fs name phone al ih
    | del fs name hr ih => exact phonebook_delete_preserves fs name ih
  obtain ⟨ents, hfs, hnd, hne⟩ := hg
  subst hfs
  have hl := list_contacts_objStore (readPhonebook_objStore (ents.map canonEnt))
  refine ⟨_, hl, ?_, ?_⟩
  · rw [List.map_map, List.map_map]
    simpa [Function.comp, canonEnt] using hnd
  · intro c hc
    rw [List.map_map] at hc
    obtain ⟨e, he, hce⟩ := List.mem_map.mp hc
    have hce' : c = ⟨e.1, Json.str e.2.1, Json.str e.2.2⟩ := by
      rw [← hce]
      rfl
    rw [hce']
    exact ⟨(hne e he).1, e.2.1, rfl, (hne e he).2⟩

/-- C7 witness: the state after one dispatcher add of `Bob` from the empty
store. -/
theorem dispatcher_store_invariant_witness :
    ∃ cs, list_contacts ((phonebook_add (.parsed (.obj []))
        (some "Bob") (some "555-0100") "work").2.1) = .ok cs ∧
      (cs.map Contact.name).Nodup ∧
      ∀ c ∈ cs, c.name ≠ "" ∧ ∃ p, c.phone = Json.str p ∧ p ≠ "" :=
  dispatcher_store_invariant
    (ReachableStore.add _ (some "Bob") (some "555-0100") "work" ReachableStore.init)

/-! ## Unknown-action routing (C9) -/

/-- C9 counterexample: dispatching the unknown action `fly` produces the
failure envelope without touching the phonebook or running a command, but its
message is the Chinese `未知操作: fly`, not the literal `unknown action:
fly` the claim states. -/
theorem unknown_action_counterexample :
    toolInvoke "linux" (.parsed (.obj [])) { action := some "fly" } =
      ⟨⟨false, "未知操作: fly", none⟩, .parsed (.obj []), []⟩ ∧
    ("未知操作: fly" : String) ≠ "unknown action: fly" := by
  refine ⟨rfl, ?_⟩
  decide

/-- C9 (amended): for every action identifier outside the supported
vocabulary, both the tool dispatcher and the HTTP route produce
`success: false` with the message `未知操作: <name>` (the code's rendering of
"unknown action"), leave the phonebook file untouched, perform no phonebook
read or write, and run no platform command; the HTTP route serves it with
status 200, except that it rejects an empty action name earlier as a missing
parameter. -/
theorem unknown_action_envelope (sys : String) (fs : FileState) (p : ToolParams) (a : String)
    (ha : p.action = some a)
    (hv : a ∉ (["phonebook_list", "phonebook_add", "phonebook_delete", "call", "sms",
      "volume", "brightness", "theme"] : List String)) :
    toolInvoke sys fs p = ⟨⟨false, "未知操作: " ++ a, none⟩, fs, []⟩ ∧
    (a ≠ "" → mobile_control sys fs (some p) = ⟨⟨false, "未知操作: " ++ a, none⟩, 200, fs, []⟩) := by
  simp only [List.mem_cons, List.not_mem_nil, or_false, not_or] at hv
  obtain ⟨h1, h2, h3, h4, h5, h6, h7, h8⟩ := hv
  constructor
  · simp [toolInvoke, ha, h1, h2, h3, h4, h5, h6, h7, h8]
  · intro h0
    simp [mobile_control, ha, h0, h1, h2, h3, h4, h5, h6, h7, h8]

/-- C9 witness: the unknown action `jump` against the empty store on
`linux`. -/
theorem unknown_action_envelope_witness :
    toolInvoke "linux" (.parsed (.obj [])) { action := some "jump" } =
      ⟨⟨false, "未知操作: " ++ "jump", none⟩, .parsed (.obj []), []⟩ ∧
    ("jump" ≠ "" → mobile_control "linux" (.parsed (.obj [])) (some { action := some "jump" }) =
      ⟨⟨false, "未知操作: " ++ "jump", none⟩, 200, .parsed (.obj []), []⟩) :=
  unknown_action_envelope "linux" (.parsed (.obj [])) { action := some "jump" } "jump"
    rfl (by decide)
